/-
Verification of the EcoCache proximity/discovery core.

Shallow embedding of the logic in `app/map.jsx`, `app/bleService.jsx`,
`app/QRcodeScanner.jsx`, `app/webview.jsx` and the API error handling
(`signUpUser`).  JavaScript strings are modelled as `List Char`, JS numbers
used by the signal model as `ℚ`/`ℤ`, and the integer metre counts returned
by geolib's `getDistance` as `ℕ`.  The platform capabilities that the app
merely forwards to (expo-location subscriptions, the react-native-ble-plx
manager, geolib's great-circle distance) are modelled as explicit state or
as function parameters, following the contracts stated in the spec.
-/
import Mathlib

set_option linter.unusedVariables false

/-! ## JavaScript string primitives (split / trim / replace / parseFloat) -/

/-- JS whitespace test used by `trim` (restricted to the ASCII whitespace
that the app's inputs can contain). -/
def jsWhitespace (c : Char) : Bool :=
  c == ' ' || c == '\t' || c == '\n' || c == '\r'

/-- Model of `String.prototype.trim`. -/
def jsTrim (s : List Char) : List Char :=
  ((s.dropWhile jsWhitespace).reverse.dropWhile jsWhitespace).reverse

/-- First occurrence of `sep` in `s`: returns the part before the
occurrence and the part after it. -/
def findOcc (sep : List Char) : List Char → Option (List Char × List Char)
  | [] => if sep = [] then some ([], []) else none
  | c :: rest =>
    if sep.isPrefixOf (c :: rest) then
      some ([], (c :: rest).drop sep.length)
    else
      (findOcc sep rest).map (fun p => (c :: p.1, p.2))

/-- Fuel-driven worker for `jsSplit`; the fuel `s.length + 1` given by
`jsSplit` is always sufficient for a non-empty separator. -/
def jsSplitGo (sep : List Char) : Nat → List Char → List (List Char)
  | 0, s => [s]
  | fuel + 1, s =>
    match findOcc sep s with
    | none => [s]
    | some (before, after) => before :: jsSplitGo sep fuel after

/-- Model of `String.prototype.split` with a non-empty string separator. -/
def jsSplit (sep s : List Char) : List (List Char) :=
  jsSplitGo sep (s.length + 1) s

/-- Model of `String.prototype.replace` with a string pattern: replaces the
first occurrence only. -/
def jsReplaceFirst (pat repl s : List Char) : List Char :=
  match findOcc pat s with
  | none => s
  | some (before, after) => before ++ (repl ++ after)

/-- Numeric value of a decimal digit character. -/
def digitVal (c : Char) : Nat := c.toNat - ('0').toNat

/-- Value of a list of decimal digit characters. -/
def natOfDigits (l : List Char) : Nat :=
  l.foldl (fun a c => 10 * a + digitVal c) 0

/-- Lexing stage of the JS builtin `parseFloat`, restricted to plain
decimal numerals (optional sign, integer digits, optional fraction),
which is the shape of the app's coordinate strings.  Returns the sign,
the integer-part value, the fraction-part value and the number of
fraction digits; `none` models `NaN` (no digits present).  Like the
builtin it reads the longest valid prefix and ignores trailing junk. -/
def parseFloatParts (s : List Char) : Option (ℤ × ℕ × ℕ × ℕ) :=
  let s1 := s.dropWhile jsWhitespace
  let signed : ℤ × List Char :=
    match s1 with
    | '-' :: rest => (-1, rest)
    | '+' :: rest => (1, rest)
    | _ => (1, s1)
  let intDigits := signed.2.takeWhile Char.isDigit
  let afterInt := signed.2.dropWhile Char.isDigit
  let fracDigits :=
    match afterInt with
    | '.' :: rest => rest.takeWhile Char.isDigit
    | _ => []
  if intDigits = [] ∧ fracDigits = [] then none
  else some (signed.1, natOfDigits intDigits, natOfDigits fracDigits,
             fracDigits.length)

/-- Model of the JS builtin `parseFloat` on the app's coordinate strings:
the numeric value of the lexed parts, as an exact rational (`none`
models `NaN`). -/
def parseFloatQ (s : List Char) : Option ℚ :=
  (parseFloatParts s).map (fun p =>
    (p.1 : ℚ) * ((p.2.1 : ℚ) + (p.2.2.1 : ℚ) / (10 : ℚ) ^ p.2.2.2))

/-! ## Data model: coordinates and beacon records -/

/-- `{ latitude, longitude }` pair (app/map.jsx). -/
structure Coordinate where
  latitude : ℚ
  longitude : ℚ
deriving DecidableEq

/-- A raw beacon record as returned by `getBeaconLocations` (`/beacons/`):
the fields the map screen reads, with `location` the unparsed
`"lat, lng"` string. -/
structure RawBeacon where
  beacon_id : String
  name : String
  location : String
deriving DecidableEq

/-- A beacon record after the `setup` parsing step of app/map.jsx:
the raw fields (`...b` spread) plus the parsed `coordinates`. -/
structure ParsedBeacon where
  beacon_id : String
  name : String
  location : String
  coordinates : Coordinate
deriving DecidableEq

/-- The trimmed comma-separated components of a record's location string:
`b.location.split(",").map((v) => v.trim())` in app/map.jsx. -/
def beaconComponents (b : RawBeacon) : List (List Char) :=
  (jsSplit [','] b.location.toList).map jsTrim

/-- One step of the beacon-parsing `.map` in `setup` (app/map.jsx lines
164-175): destructure the first two split components, `parseFloat` both,
and return `null` (here `none`) if either is `NaN`.  A missing component
(destructuring past the end of the array) is `undefined`, and
`parseFloat(undefined)` is `NaN`, hence the `Option.bind`. -/
def parseBeacon (b : RawBeacon) : Option ParsedBeacon :=
  match ((beaconComponents b).get? 0).bind parseFloatQ,
        ((beaconComponents b).get? 1).bind parseFloatQ with
  | some la, some lo =>
    some { beacon_id := b.beacon_id, name := b.name, location := b.location,
           coordinates := { latitude := la, longitude := lo } }
  | _, _ => none

/-- The whole parsing pipeline `remoteBeacons.map(...).filter(Boolean)`. -/
def parseBeacons (raws : List RawBeacon) : List ParsedBeacon :=
  (raws.map parseBeacon).filterMap id

/-! ## Signal model (app/map.jsx `getSignalStrengthPercent` / `getSignalLabel`) -/

/-- `getSignalStrengthPercent` (app/map.jsx lines 39-45): `null`/missing
RSSI gives 0; otherwise linear interpolation between `minRSSI = -100` and
`maxRSSI = -50`, clamped to `[0, 100]` and rounded. -/
def getSignalStrengthPercent (rssi : Option ℤ) : ℤ :=
  match rssi with
  | none => 0
  | some r =>
    let maxRSSI : ℚ := -50
    let minRSSI : ℚ := -100
    let percent : ℚ := ((r : ℚ) - minRSSI) / (maxRSSI - minRSSI) * 100
    round (max 0 (min 100 percent))

/-- The normalization as the spec words it: linear interpolation between
floor -100 (→ 0) and ceiling -50 (→ 100), i.e. `2 * (r + 100)`, clamped
to `[0, 100]`; `null` maps to 0. -/
def normalizeSpec (rssi : Option ℤ) : ℤ :=
  match rssi with
  | none => 0
  | some r => min 100 (max 0 (2 * (r + 100)))

/-- `getSignalLabel` (app/map.jsx lines 50-56). -/
def getSignalLabel (percent : ℤ) : String :=
  if percent > 80 then ("Excellent")
  else if percent > 60 then ("Good")
  else if percent > 40 then ("Fair")
  else if percent > 20 then ("Weak")
  else ("Very Weak")

/-- The classification as the spec words it: threshold bands
`>80 Excellent, >60 Good, >40 Fair, >20 Weak, else VeryWeak` (the spec's
enum value `VeryWeak` is displayed by the code as `"Very Weak"`). -/
def classifySpec (percent : ℤ) : String :=
  if 80 < percent then ("Excellent")
  else if 60 < percent then ("Good")
  else if 40 < percent then ("Fair")
  else if 20 < percent then ("Weak")
  else ("Very Weak")

/-! ## Nearest-beacon selection (app/map.jsx `calculateDistance`) -/

/-- The `distance` annotation that `calculateDistance` attaches to each
location: integer metres (geolib's `getDistance` returns whole metres)
and the `nearby: metres <= 100` flag. -/
structure DistInfo where
  metres : ℕ
  nearby : Bool
deriving DecidableEq

/-- A beacon record annotated with its `distance` field, as produced by
the `.map` inside `calculateDistance`. -/
structure AnnBeacon where
  beacon : ParsedBeacon
  distance : DistInfo
deriving DecidableEq

/-- The `.map` body of `calculateDistance`: attach
`{ metres, nearby: metres <= 100 }` to a location.  The great-circle
distance function itself (geolib's `getDistance`) is an external library,
passed in as the parameter `dist`. -/
def annotateBeacon (dist : Coordinate → Coordinate → ℕ) (user : Coordinate)
    (l : ParsedBeacon) : AnnBeacon :=
  { beacon := l,
    distance := { metres := dist user l.coordinates,
                  nearby := decide (dist user l.coordinates ≤ 100) } }

/-- Stable insertion used to model the JS `Array.prototype.sort` with
comparator `(a, b) => a.distance.metres - b.distance.metres`; `sort` is
stable, so equal keys keep their original order. -/
def insertByMetres (x : AnnBeacon) : List AnnBeacon → List AnnBeacon
  | [] => [x]
  | y :: ys =>
    if x.distance.metres ≤ y.distance.metres then x :: y :: ys
    else y :: insertByMetres x ys

/-- Stable ascending sort by `distance.metres` (model of the JS stable
`Array.prototype.sort` with the numeric comparator above). -/
def sortByMetres : List AnnBeacon → List AnnBeacon
  | [] => []
  | x :: xs => insertByMetres x (sortByMetres xs)

/-- Proof-side companion of `sortByMetres`: the first element of the list
attaining the minimal `distance.metres` (ties keep the earlier element). -/
def firstMinByMetres : List AnnBeacon → Option AnnBeacon
  | [] => none
  | x :: xs =>
    match firstMinByMetres xs with
    | none => some x
    | some y => if x.distance.metres ≤ y.distance.metres then some x else some y

/-- `calculateDistance` (app/map.jsx lines 134-146): annotate every loaded
location with its distance, sort ascending, and `shift()` the first
element (`undefined`, i.e. `none`, for an empty list). -/
def calculateDistance (dist : Coordinate → Coordinate → ℕ) (user : Coordinate)
    (locations : List ParsedBeacon) : Option AnnBeacon :=
  (sortByMetres (locations.map (annotateBeacon dist user))).head?

/-! ## Map-screen session state and its update callbacks -/

/-- The state owned by one visit of the `ShowMap` screen: the `mapState`
fields (`userLocation`, `nearbyLocation`), the `alertShownRef` latch, the
`rssi` state, and the liveness of the two platform subscriptions (the
location watch handle and the BLE scan), which the cleanup revokes. -/
structure SessionState where
  userLocation : Coordinate
  nearbyLocation : Option AnnBeacon
  alertShown : Bool
  rssi : Option ℤ
  locActive : Bool
  bleActive : Bool
deriving DecidableEq

/-- Initial state of `ShowMap`: the default `userLocation`, empty
`nearbyLocation` (the initial `{}` has no `distance` field, so the
`?.distance?.nearby` chain is falsy, which `none` models), no RSSI,
latch down, both streams live once `setup` has run. -/
def initialState : SessionState :=
  { userLocation := { latitude := -27.5263381, longitude := 153.0954163 },
    nearbyLocation := none,
    alertShown := false,
    rssi := none,
    locActive := true,
    bleActive := true }

/-- The optional-chaining read `nearby?.distance?.nearby` (falsy when the
nearest-beacon value is `undefined`). -/
def isNearbyOf (nb : Option AnnBeacon) : Bool :=
  match nb with
  | none => false
  | some b => b.distance.nearby

/-- The `watchPositionAsync` callback (app/map.jsx lines 193-209): build
the new user location, recompute the nearest beacon, reset the
`alertShownRef` latch whenever the user is not within range, and store
the new `userLocation` / `nearbyLocation`. -/
def locUpdate (dist : Coordinate → Coordinate → ℕ) (locations : List ParsedBeacon)
    (coords : Coordinate) (s : SessionState) : SessionState :=
  { s with
    userLocation := coords,
    nearbyLocation := calculateDistance dist coords locations,
    alertShown :=
      if isNearbyOf (calculateDistance dist coords locations) then s.alertShown
      else false }

/-- Visibility of the "🎯 You're near the treasure!" prompt: the JSX
renders it exactly when `mapState.nearbyLocation?.distance?.nearby` is
truthy (app/map.jsx lines 283-297). -/
def scanPromptShown (s : SessionState) : Bool :=
  isNearbyOf s.nearbyLocation

/-- A "near a treasure" notification fires at a step exactly when the
prompt becomes visible: hidden before the update, shown after it. -/
def stepFire (before after : SessionState) : Bool :=
  !scanPromptShown before && scanPromptShown after

/-- Run a sequence of location updates, counting how many times the
"near the treasure" notification fires. -/
def runLoc (dist : Coordinate → Coordinate → ℕ) (locations : List ParsedBeacon) :
    SessionState → List Coordinate → SessionState × ℕ
  | s, [] => (s, 0)
  | s, c :: cs =>
    let s2 := locUpdate dist locations c s
    let r := runLoc dist locations s2 cs
    (r.1, (if stepFire s s2 then 1 else 0) + r.2)

/-- A BLE device as seen by the scan callback: advertised name and RSSI
(`none` models a `null` RSSI reading). -/
structure Device where
  name : String
  rssi : Option ℤ
deriving DecidableEq

/-- The `startBLEScan` callback registered by `ShowMap` (app/map.jsx lines
182-186): `if (device?.rssi !== null) setRssi(device.rssi)`.  A missing
device gives `undefined`, which is `!== null`, so `rssi` is set to
`undefined` (`none`); a `null` RSSI fails the guard and leaves the state
alone. -/
def bleCallback (device : Option Device) (s : SessionState) : SessionState :=
  match device with
  | none => { s with rssi := none }
  | some d =>
    match d.rssi with
    | none => s
    | some r => { s with rssi := some r }

/-- The device-name filter of `startBLEScan` (app/bleService.jsx line 65):
the callback is forwarded only when the advertised name contains the
recognition token `"DECO3801"` as a substring. -/
def nameMatches (device : Option Device) : Bool :=
  match device with
  | none => false
  | some d => (findOcc ("DECO3801").toList d.name.toList).isSome

/-- An asynchronous event arriving at the session: a location fix or a
radio-scan callback. -/
inductive SessionEvent where
  | location (coords : Coordinate)
  | scan (device : Option Device)
deriving DecidableEq

/-- Delivery of one event to the session.  Per the platform contracts the
spec states for `LocationTracker.watch` (cancelling stops further
callbacks) and `RadioScanner.stop` (halts scanning), an event reaches the
component callbacks only while the corresponding subscription is still
active; a matching scan event is filtered by the `"DECO3801"` name check
before the `onMatch` callback runs. -/
def deliver (dist : Coordinate → Coordinate → ℕ) (locations : List ParsedBeacon)
    (e : SessionEvent) (s : SessionState) : SessionState :=
  match e with
  | .location c => if s.locActive then locUpdate dist locations c s else s
  | .scan dev =>
    if s.bleActive then (if nameMatches dev then bleCallback dev s else s) else s

/-- The `useEffect` cleanup of `ShowMap` (app/map.jsx lines 215-218):
`locationSubscription.remove()` and `stopBLEScan()` — both streams are
revoked synchronously; the component state fields are untouched. -/
def teardown (s : SessionState) : SessionState :=
  { s with locActive := false, bleActive := false }

/-! ## BLE scanner lifecycle (app/bleService.jsx) -/

/-- Modelled from the spec: the platform BLE manager
(react-native-ble-plx's `BleManager`, not part of this repository) as the
spec describes the radio-scan resource in §4.4 — it is either scanning or
not, and can be destroyed/released; `stop()` "halts scanning and releases
the underlying radio-scan resource" and "must be safe to call even if
`start` was never called or already stopped". -/
structure BleManagerState where
  scanning : Bool
  destroyed : Bool
deriving DecidableEq

/-- `new BleManager()` (app/bleService.jsx line 6): fresh manager, not
scanning, not destroyed. -/
def BleManagerState.initial : BleManagerState :=
  { scanning := false, destroyed := false }

/-- Modelled from the spec: `manager.startDeviceScan` begins continuous
scanning (no effect on a released manager). -/
def BleManagerState.startDeviceScan (m : BleManagerState) : BleManagerState :=
  if m.destroyed then m else { m with scanning := true }

/-- Modelled from the spec: `manager.stopDeviceScan` halts scanning; a
no-op when no scan is running. -/
def BleManagerState.stopDeviceScan (m : BleManagerState) : BleManagerState :=
  { m with scanning := false }

/-- Modelled from the spec: `manager.destroy` releases the underlying
radio-scan resource. -/
def BleManagerState.destroy (m : BleManagerState) : BleManagerState :=
  { m with scanning := false, destroyed := true }

/-- `stopBLEScan` (app/bleService.jsx lines 76-79):
`manager.stopDeviceScan(); manager.destroy();`. -/
def stopBLEScan (m : BleManagerState) : BleManagerState :=
  m.stopDeviceScan.destroy

/-! ## QR pipeline (app/QRcodeScanner.jsx and app/webview.jsx) -/

/-- The path marker `"/beacon/"` used by `handleBarCodeScanned`. -/
def beaconPathToken : List Char := ("/beacon/").toList

/-- The custom scheme `"beacon://"` used when handing the id to the
detail/discovery view. -/
def beaconScheme : List Char := ("beacon://").toList

/-- Beacon-id extraction from a scanned URL's pathname
(app/QRcodeScanner.jsx lines 68-76): if the pathname starts with
`"/beacon/"`, take `pathname.split("/beacon/")[1]`; `undefined` or an
empty string is falsy and the scan is rejected as an invalid QR code
(`none`). -/
def extractBeaconId (pathname : List Char) : Option (List Char) :=
  if beaconPathToken.isPrefixOf pathname then
    match (jsSplit beaconPathToken pathname).get? 1 with
    | some seg => if seg = [] then none else some seg
    | none => none
  else none

/-- Beacon-id recovery in the detail view (app/webview.jsx lines 18-21):
if the incoming url starts with `"beacon://"`, strip it with
`replace(..)` using the scheme as pattern (JS `replace` with a string
pattern replaces the first occurrence, which under the `startsWith` guard
is the prefix). -/
def webviewBeaconId (url : List Char) : List Char :=
  if beaconScheme.isPrefixOf url then jsReplaceFirst beaconScheme [] url
  else url

/-- The whole QR pipeline on a scanned URL's pathname: extract the id,
forward it as the custom-scheme locator `beacon://{id}` (the
`encodeURIComponent` at the hand-off and the `decodeURIComponent` in the
detail view cancel), and recover the id in the detail view.  `none`
models the "Invalid QR Code" rejection. -/
def qrRoundTrip (pathname : List Char) : Option (List Char) :=
  (extractBeaconId pathname).map (fun id => webviewBeaconId (beaconScheme ++ id))

/-! ## Sign-up error surfacing (`signUpUser` in the API layer) -/

/-- The JSON error body of a non-2xx `/signup/` response: optional
per-field message arrays and an optional `detail` string. -/
structure SignUpErrorBody where
  username : Option (List String)
  password : Option (List String)
  email : Option (List String)
  dob : Option (List String)
  detail : Option String
deriving DecidableEq

/-- JS `a || b` on an optionally-present string `a`: `undefined` and the
empty string are falsy and fall through to `b`. -/
def jsOr (v : Option String) (fallback : String) : String :=
  match v with
  | some s => if s = "" then fallback else s
  | none => fallback

/-- A chain of JS `||` over optionally-present strings, ending in a
default. -/
def jsOrChain : List (Option String) → String → String
  | [], dflt => dflt
  | v :: rest, dflt => jsOr v (jsOrChain rest dflt)

/-- The error message thrown by `signUpUser` on a non-2xx response:
`data?.username?.[0] || data?.password?.[0] || data?.email?.[0] ||
data?.dob?.[0] || data?.detail || 'Registration failed'`. -/
def signUpErrorMessage (data : SignUpErrorBody) : String :=
  jsOr (data.username.bind List.head?)
    (jsOr (data.password.bind List.head?)
      (jsOr (data.email.bind List.head?)
        (jsOr (data.dob.bind List.head?)
          (jsOr data.detail ("Registration failed")))))

/-- The selection rule as the claim words it: the first PRESENT
field-level message in the order username[0], password[0], email[0],
dob[0], falling back to `detail` if none is present, and to a generic
failure string if `detail` is also absent. -/
def firstPresentMessage (data : SignUpErrorBody) : String :=
  ((data.username.bind List.head?).orElse (fun _ =>
    (data.password.bind List.head?).orElse (fun _ =>
      (data.email.bind List.head?).orElse (fun _ =>
        (data.dob.bind List.head?).orElse (fun _ => data.detail))))).getD
    ("Registration failed")

/-- The amended selection rule: the first present NON-EMPTY message among
username[0], password[0], email[0], dob[0], detail, in that order, else
the generic failure string. -/
def firstNonEmptyMessage (data : SignUpErrorBody) : String :=
  ((([data.username.bind List.head?, data.password.bind List.head?,
      data.email.bind List.head?, data.dob.bind List.head?,
      data.detail].filterMap id).find? (fun s => !(s == ""))).getD
    ("Registration failed"))

/-! ## Concrete scenario data used by the claims' probes -/

/-- A demo beacon at the origin (any fixed record works; the distances in
the latch scenario come from the distance-function table below). -/
def demoBeacon : ParsedBeacon :=
  { beacon_id := "b1", name := "Demo", location := "0, 0",
    coordinates := { latitude := 0, longitude := 0 } }

/-- Five successive user fixes, encoded by latitude 1..5. -/
def demoUsers : List Coordinate :=
  [{ latitude := 1, longitude := 0 }, { latitude := 2, longitude := 0 },
   { latitude := 3, longitude := 0 }, { latitude := 4, longitude := 0 },
   { latitude := 5, longitude := 0 }]

/-- A distance table realizing the spec's probe sequence
`[150, 90, 95, 150, 90]` for the five fixes above. -/
def demoDistSeq : Coordinate → Coordinate → ℕ :=
  fun u _ =>
    if u.latitude = 1 then 150
    else if u.latitude = 2 then 90
    else if u.latitude = 3 then 95
    else if u.latitude = 4 then 150
    else 90

/-- The good record of the directory-parsing probe. -/
def demoGoodRaw : RawBeacon :=
  { beacon_id := "", name := "", location := "1.0, 2.0" }

/-- The malformed record of the directory-parsing probe. -/
def demoBadRaw : RawBeacon :=
  { beacon_id := "", name := "", location := "bad,data" }

/-- A sign-up error body whose first field-level message is present but
empty: `username` errors `[""]`, `password` errors a real message. -/
def demoSignUpBody : SignUpErrorBody :=
  { username := some [""], password := some ["This password is too short."],
    email := none, dob := none, detail := none }

/-! ## Helper lemmas -/

/-- Head of a stable insertion into a non-empty list: the inserted element
if its key is no larger than the old head's, otherwise the old head. -/
theorem insertByMetres_head_cons (x y : AnnBeacon) (ys : List AnnBeacon) :
    (insertByMetres x (y :: ys)).head? =
      some (if x.distance.metres ≤ y.distance.metres then x else y) := by
  simp only [insertByMetres]
  split <;> rfl

/-- The head of the stable sort is the first minimum of the list. -/
theorem sortByMetres_head (l : List AnnBeacon) :
    (sortByMetres l).head? = firstMinByMetres l := by
  induction l with
  | nil => rfl
  | cons x xs ih =>
    simp only [sortByMetres, firstMinByMetres]
    cases hs : sortByMetres xs with
    | nil =>
      have h2 : firstMinByMetres xs = none := by rw [← ih, hs]; rfl
      rw [h2]
      rfl
    | cons y ys =>
      have h2 : firstMinByMetres xs = some y := by rw [← ih, hs]; rfl
      rw [h2, insertByMetres_head_cons]
      show some (if x.distance.metres ≤ y.distance.metres then x else y) =
        if x.distance.metres ≤ y.distance.metres then some x else some y
      split <;> rfl

/-- `firstMinByMetres` returns nothing exactly on the empty list. -/
theorem firstMinByMetres_eq_none (l : List AnnBeacon) :
    firstMinByMetres l = none ↔ l = [] := by
  cases l with
  | nil => simp [firstMinByMetres]
  | cons x xs =>
    simp only [firstMinByMetres]
    cases h : firstMinByMetres xs with
    | none => simp
    | some y =>
      by_cases hc : x.distance.metres ≤ y.distance.metres <;> simp [hc]

/-- The element returned by `firstMinByMetres` has minimal key, and
everything strictly before it in the list has a strictly larger key (so
on ties the earliest element wins). -/
theorem firstMinByMetres_spec (l : List AnnBeacon) (b : AnnBeacon)
    (hb : firstMinByMetres l = some b) :
    (∀ x ∈ l, b.distance.metres ≤ x.distance.metres) ∧
    ∃ pre post, l = pre ++ b :: post ∧
      ∀ x ∈ pre, b.distance.metres < x.distance.metres := by
  induction l generalizing b with
  | nil => cases hb
  | cons x xs ih =>
    simp only [firstMinByMetres] at hb
    cases h : firstMinByMetres xs with
    | none =>
      rw [h] at hb
      have hb2 : some x = some b := hb
      have hxs : xs = [] := (firstMinByMetres_eq_none xs).mp h
      obtain rfl : x = b := Option.some.inj hb2
      subst hxs
      exact ⟨by simp, [], [], by simp, by simp⟩
    | some y =>
      rw [h] at hb
      have hb2 : (if x.distance.metres ≤ y.distance.metres then some x
          else some y) = some b := hb
      by_cases hc : x.distance.metres ≤ y.distance.metres
      · rw [if_pos hc] at hb2
        obtain rfl : x = b := Option.some.inj hb2
        obtain ⟨hmin, pre, post, hdec, hpre⟩ := ih y h
        refine ⟨?_, [], xs, rfl, by simp⟩
        intro z hz
        rcases List.mem_cons.mp hz with rfl | hz
        · exact le_refl _
        · exact le_trans hc (hmin z hz)
      · rw [if_neg hc] at hb2
        obtain rfl : y = b := Option.some.inj hb2
        obtain ⟨hmin, pre, post, hdec, hpre⟩ := ih y h
        refine ⟨?_, x :: pre, post, by rw [hdec]; rfl, ?_⟩
        · intro z hz
          rcases List.mem_cons.mp hz with rfl | hz
          · exact le_of_lt (lt_of_not_le hc)
          · exact hmin z hz
        · intro z hz
          rcases List.mem_cons.mp hz with rfl | hz
          · exact lt_of_not_le hc
          · exact hpre z hz

/-- A record with an unparseable component is mapped to `null` by the
beacon-parsing step. -/
theorem parseBeacon_of_component_nan (rec : RawBeacon)
    (h : ((beaconComponents rec).get? 0).bind parseFloatQ = none ∨
         ((beaconComponents rec).get? 1).bind parseFloatQ = none) :
    parseBeacon rec = none := by
  unfold parseBeacon
  rcases h with h | h
  · rw [h]
  · cases hfst : ((beaconComponents rec).get? 0).bind parseFloatQ with
    | none => rfl
    | some la => rw [h]

/-- `isPrefixOf` holds of a list and any extension of it. -/
theorem isPrefixOf_self_append (l r : List Char) : l.isPrefixOf (l ++ r) = true := by
  induction l with
  | nil => simp [List.isPrefixOf]
  | cons c t ih => simp [List.isPrefixOf, ih]

/-- The first occurrence of a non-empty `sep` in `sep ++ rest` is at the
very beginning. -/
theorem findOcc_self_append (sep rest : List Char) (h : sep ≠ []) :
    findOcc sep (sep ++ rest) = some ([], rest) := by
  cases sep with
  | nil => exact absurd rfl h
  | cons c t =>
    have hpre : (c :: t).isPrefixOf (c :: (t ++ rest)) = true := by
      have h2 := isPrefixOf_self_append (c :: t) rest
      rwa [List.cons_append] at h2
    rw [List.cons_append, findOcc, if_pos hpre]
    have hdrop : (c :: (t ++ rest)).drop (c :: t).length = rest := by
      rw [← List.cons_append]
      exact List.drop_left (c :: t) rest
    rw [hdrop]

/-- With any non-zero fuel, splitting a string with no separator
occurrence yields the single chunk. -/
theorem jsSplitGo_of_none (sep s : List Char) (fuel : ℕ) (hf : fuel ≠ 0)
    (h : findOcc sep s = none) : jsSplitGo sep fuel s = [s] := by
  cases fuel with
  | zero => exact absurd rfl hf
  | succ n => simp [jsSplitGo, h]

/-- Splitting `sep ++ id` on a non-empty `sep` that does not occur in
`id` yields exactly the chunks `["", id]`, as JS `split` does. -/
theorem jsSplit_token_at_start (sep id : List Char) (hsep : sep ≠ [])
    (h : findOcc sep id = none) : jsSplit sep (sep ++ id) = [[], id] := by
  unfold jsSplit
  rw [jsSplitGo, findOcc_self_append sep id hsep]
  show ([] : List Char) :: jsSplitGo sep (sep ++ id).length id = [[], id]
  rw [jsSplitGo_of_none sep id _ ?_ h]
  have hpos : 0 < sep.length := List.length_pos.mpr hsep
  simp only [List.length_append]
  omega

/-- A chain of JS `||` over optional strings equals "first present
non-empty value, else the default". -/
theorem jsOrChain_eq_firstNonEmpty (l : List (Option String)) (dflt : String) :
    jsOrChain l dflt =
      ((l.filterMap id).find? (fun s => !(s == ""))).getD dflt := by
  induction l with
  | nil => rfl
  | cons v rest ih =>
    cases v with
    | none =>
      simpa [jsOrChain, jsOr] using ih
    | some s =>
      by_cases hs : s = ""
      · subst hs
        simp [jsOrChain, jsOr, ih, List.filterMap_cons]
      · simp [jsOrChain, jsOr, hs, List.filterMap_cons]

/-! ## Claim theorems -/

/-- Claim C1: the "you are near a treasure" notification fires exactly
once per approach — whenever the prompt becomes hidden the `alertShownRef`
latch is reset, a step that starts within range never fires again, and
the distance sequence `[150, 90, 95, 150, 90]` against threshold 100
fires the notification exactly twice. -/
theorem C1_near_notification_latch :
    (∀ (dist : Coordinate → Coordinate → ℕ) (locations : List ParsedBeacon)
        (c : Coordinate) (s : SessionState),
        scanPromptShown (locUpdate dist locations c s) = false →
        (locUpdate dist locations c s).alertShown = false) ∧
    (∀ (dist : Coordinate → Coordinate → ℕ) (locations : List ParsedBeacon)
        (c : Coordinate) (s : SessionState),
        scanPromptShown s = true →
        stepFire s (locUpdate dist locations c s) = false) ∧
    (runLoc demoDistSeq [demoBeacon] initialState demoUsers).2 = 2 := by
  refine ⟨?_, ?_, by decide⟩
  · intro dist locations c s h
    simp only [scanPromptShown, locUpdate] at h ⊢
    simp [h]
  · intro dist locations c s h
    simp [stepFire, h]

/-- Claim C1, witness: the latch-reset and no-refire parts instantiated on
the probe scenario (step to distance 150 resets the latch; staying within
range between the 90 and 95 fixes does not fire), plus the fire count 2. -/
theorem C1_near_notification_latch_witness :
    (locUpdate demoDistSeq [demoBeacon] { latitude := 1, longitude := 0 }
      initialState).alertShown = false ∧
    stepFire
      (locUpdate demoDistSeq [demoBeacon] { latitude := 2, longitude := 0 }
        initialState)
      (locUpdate demoDistSeq [demoBeacon] { latitude := 3, longitude := 0 }
        (locUpdate demoDistSeq [demoBeacon] { latitude := 2, longitude := 0 }
          initialState)) = false ∧
    (runLoc demoDistSeq [demoBeacon] initialState demoUsers).2 = 2 :=
  ⟨C1_near_notification_latch.1 demoDistSeq [demoBeacon] _ initialState (by decide),
   C1_near_notification_latch.2.1 demoDistSeq [demoBeacon] _ _ (by decide),
   C1_near_notification_latch.2.2⟩

/-- Claim C2: once teardown has run (location subscription removed, BLE
scan stopped), delivering any further location or scan event is a no-op,
and the observable state (user location, nearest beacon, signal reading)
is unchanged from its value before the cancel. -/
theorem C2_teardown_noop (dist : Coordinate → Coordinate → ℕ)
    (locations : List ParsedBeacon) (e : SessionEvent) (s : SessionState) :
    deliver dist locations e (teardown s) = teardown s ∧
    (teardown s).userLocation = s.userLocation ∧
    (teardown s).nearbyLocation = s.nearbyLocation ∧
    (teardown s).rssi = s.rssi := by
  refine ⟨?_, rfl, rfl, rfl⟩
  cases e <;> simp [deliver, teardown]

/-- Claim C3: on a location update with a non-empty beacon list,
`calculateDistance` returns a beacon annotated with its actual distance,
with `nearby` set to `distance ≤ 100`, whose distance is minimal among
all loaded records, and which is the first list element attaining that
minimum (every annotated record before it is strictly farther). -/
theorem C3_nearest_selection (dist : Coordinate → Coordinate → ℕ)
    (u : Coordinate) (locations : List ParsedBeacon)
    (h : locations ≠ []) :
    ∃ b, calculateDistance dist u locations = some b ∧
      b.distance.metres = dist u b.beacon.coordinates ∧
      b.distance.nearby = decide (b.distance.metres ≤ 100) ∧
      (∀ l ∈ locations, b.distance.metres ≤ dist u l.coordinates) ∧
      ∃ pre post, locations.map (annotateBeacon dist u) = pre ++ b :: post ∧
        ∀ x ∈ pre, b.distance.metres < x.distance.metres := by
  have hne : locations.map (annotateBeacon dist u) ≠ [] := by
    simpa using h
  obtain ⟨b, hb⟩ :
      ∃ b, firstMinByMetres (locations.map (annotateBeacon dist u)) = some b := by
    cases hfm : firstMinByMetres (locations.map (annotateBeacon dist u)) with
    | none => exact absurd ((firstMinByMetres_eq_none _).mp hfm) hne
    | some b => exact ⟨b, rfl⟩
  obtain ⟨hmin, pre, post, hdec, hpre⟩ := firstMinByMetres_spec _ b hb
  have hmem : b ∈ locations.map (annotateBeacon dist u) := by
    rw [hdec]
    exact List.mem_append_right _ (List.mem_cons_self _ _)
  obtain ⟨l0, hl0, hbl0⟩ := List.mem_map.mp hmem
  refine ⟨b, ?_, ?_, ?_, ?_, pre, post, hdec, hpre⟩
  · unfold calculateDistance
    rw [sortByMetres_head, hb]
  · rw [← hbl0]; rfl
  · rw [← hbl0]; rfl
  · intro l hl
    have hm : annotateBeacon dist u l ∈ locations.map (annotateBeacon dist u) :=
      List.mem_map_of_mem _ hl
    simpa [annotateBeacon] using hmin _ hm

/-- Claim C3, witness: the selection facts instantiated on a concrete
single-beacon list and the probe distance table. -/
theorem C3_nearest_selection_witness :
    (([demoBeacon] : List ParsedBeacon) ≠ []) ∧
    (∃ b, calculateDistance demoDistSeq { latitude := 1, longitude := 0 }
        [demoBeacon] = some b ∧
      b.distance.metres =
        demoDistSeq { latitude := 1, longitude := 0 } b.beacon.coordinates ∧
      b.distance.nearby = decide (b.distance.metres ≤ 100) ∧
      (∀ l ∈ ([demoBeacon] : List ParsedBeacon), b.distance.metres ≤
        demoDistSeq { latitude := 1, longitude := 0 } l.coordinates) ∧
      ∃ pre post, ([demoBeacon] : List ParsedBeacon).map
          (annotateBeacon demoDistSeq { latitude := 1, longitude := 0 }) =
          pre ++ b :: post ∧
        ∀ x ∈ pre, b.distance.metres < x.distance.metres) :=
  ⟨by decide, C3_nearest_selection demoDistSeq _ [demoBeacon] (by decide)⟩

/-- Claim C4: `getSignalStrengthPercent` maps a null/missing RSSI to 0 and
an integer RSSI to the linear interpolation between floor -100 (→ 0) and
ceiling -50 (→ 100) clamped to `[0, 100]`; in particular `null ↦ 0`,
`-50 ↦ 100`, `-100 ↦ 0` and `-75 ↦ 50`. -/
theorem C4_normalize :
    getSignalStrengthPercent none = 0 ∧
    (∀ r : ℤ, getSignalStrengthPercent (some r) = normalizeSpec (some r)) ∧
    getSignalStrengthPercent (some (-50)) = 100 ∧
    getSignalStrengthPercent (some (-100)) = 0 ∧
    getSignalStrengthPercent (some (-75)) = 50 := by
  have hgen : ∀ r : ℤ,
      getSignalStrengthPercent (some r) = normalizeSpec (some r) := by
    intro r
    show round (max 0 (min 100 (((r : ℚ) - (-100)) / ((-50) - (-100)) * 100))) =
      min 100 (max 0 (2 * (r + 100)))
    have h1 : ((r : ℚ) - (-100)) / ((-50 : ℚ) - (-100)) * 100 =
        ((2 * (r + 100) : ℤ) : ℚ) := by push_cast; ring
    rw [h1]
    have h2 : max (0 : ℚ) (min 100 ((2 * (r + 100) : ℤ) : ℚ)) =
        ((max 0 (min 100 (2 * (r + 100))) : ℤ) : ℚ) := by push_cast; rfl
    rw [h2, round_intCast]
    omega
  refine ⟨rfl, hgen, (hgen (-50)).trans (by decide),
    (hgen (-100)).trans (by decide), (hgen (-75)).trans (by decide)⟩

/-- Claim C5: `getSignalLabel` implements exactly the spec's threshold
bands `>80 Excellent, >60 Good, >40 Fair, >20 Weak, else VeryWeak`
(displayed as `"Very Weak"`), including all eight boundary probes. -/
theorem C5_classify_bands :
    (∀ percent : ℤ, getSignalLabel percent = classifySpec percent) ∧
    getSignalLabel 81 = ("Excellent") ∧ getSignalLabel 80 = ("Good") ∧
    getSignalLabel 61 = ("Good") ∧ getSignalLabel 60 = ("Fair") ∧
    getSignalLabel 41 = ("Fair") ∧ getSignalLabel 40 = ("Weak") ∧
    getSignalLabel 21 = ("Weak") ∧ getSignalLabel 20 = ("Very Weak") :=
  ⟨fun percent => rfl, by decide, by decide, by decide, by decide, by decide,
   by decide, by decide, by decide⟩

/-- Claim C6: directory loading parses each record's location string by
split/trim/parseFloat and silently excludes a record whose either
component fails to parse, without failing the rest of the load; the probe
`[{location:"1.0, 2.0"}, {location:"bad,data"}]` yields exactly the one
record with coordinates `{1.0, 2.0}`. -/
theorem C6_directory_parsing :
    parseBeacons [demoGoodRaw, demoBadRaw] =
      [{ beacon_id := "", name := "", location := "1.0, 2.0",
         coordinates := { latitude := 1, longitude := 2 } }] ∧
    (∀ (pre post : List RawBeacon) (rec : RawBeacon),
      (((beaconComponents rec).get? 0).bind parseFloatQ = none ∨
       ((beaconComponents rec).get? 1).bind parseFloatQ = none) →
      parseBeacon rec = none ∧
      parseBeacons (pre ++ rec :: post) = parseBeacons (pre ++ post)) := by
  constructor
  · have c0 : (beaconComponents demoGoodRaw).get? 0 = some (("1.0").toList) := by
      decide
    have c1 : (beaconComponents demoGoodRaw).get? 1 = some (("2.0").toList) := by
      decide
    have pp0 : parseFloatParts (("1.0").toList) = some (1, 1, 0, 1) := by decide
    have pp1 : parseFloatParts (("2.0").toList) = some (1, 2, 0, 1) := by decide
    have p0 : parseFloatQ (("1.0").toList) = some 1 := by
      unfold parseFloatQ
      rw [pp0]
      simp only [Option.map_some']
      norm_num
    have p1 : parseFloatQ (("2.0").toList) = some 2 := by
      unfold parseFloatQ
      rw [pp1]
      simp only [Option.map_some']
      norm_num
    have pg : parseBeacon demoGoodRaw =
        some { beacon_id := "", name := "", location := "1.0, 2.0",
               coordinates := { latitude := 1, longitude := 2 } } := by
      unfold parseBeacon
      rw [c0, c1]
      simp only [Option.some_bind]
      rw [p0, p1]
      rfl
    have pb : parseBeacon demoBadRaw = none :=
      parseBeacon_of_component_nan _ (Or.inl (by decide))
    unfold parseBeacons
    simp [pg, pb]
  · intro pre post rec h
    have hn := parseBeacon_of_component_nan rec h
    refine ⟨hn, ?_⟩
    unfold parseBeacons
    simp [hn]

/-- Claim C6, witness: the exclusion facts instantiated on the probe's
malformed record `{location:"bad,data"}` inside a two-record load. -/
theorem C6_directory_parsing_witness :
    (((beaconComponents demoBadRaw).get? 0).bind parseFloatQ = none ∨
     ((beaconComponents demoBadRaw).get? 1).bind parseFloatQ = none) ∧
    (parseBeacon demoBadRaw = none ∧
     parseBeacons ([demoGoodRaw] ++ demoBadRaw :: []) =
       parseBeacons ([demoGoodRaw] ++ [])) :=
  ⟨Or.inl (by decide),
   C6_directory_parsing.2 [demoGoodRaw] [] demoBadRaw (Or.inl (by decide))⟩

/-- Claim C7: `stopBLEScan` is idempotent and safe — calling it on a
fresh manager on which scanning never started, or calling it a second
time, succeeds and leaves the scanner stopped and released. -/
theorem C7_stop_idempotent :
    (∀ m : BleManagerState, stopBLEScan (stopBLEScan m) = stopBLEScan m ∧
      (stopBLEScan m).scanning = false) ∧
    stopBLEScan BleManagerState.initial =
      { scanning := false, destroyed := true } :=
  ⟨fun m => ⟨rfl, rfl⟩, rfl⟩

/-- Claim C8, counterexample: the claim quantifies over every beacon id,
but for the id `"a/beacon/b"` the scanned pathname `/beacon/a/beacon/b`
is re-encoded and recovered as `"a"`, not the original id, because
`split("/beacon/")[1]` stops at the next occurrence of the marker. -/
theorem C8_roundtrip_counterexample :
    ("/beacon/a/beacon/b").toList = beaconPathToken ++ ("a/beacon/b").toList ∧
    qrRoundTrip (("/beacon/a/beacon/b").toList) = some (("a").toList) ∧
    ("a").toList ≠ ("a/beacon/b").toList :=
  ⟨by decide, by decide, by decide⟩

/-- Claim C8, amended: for every non-empty beacon id that does not
itself contain the `"/beacon/"` marker, the pipeline round-trips the id
exactly (pathname `/beacon/{id}` is forwarded as `beacon://{id}` and
recovered verbatim); a pathname not starting with `/beacon/`, or one with
an empty id segment, is rejected as invalid rather than forwarded. -/
theorem C8_roundtrip_amended :
    (∀ id : List Char, id ≠ [] → findOcc beaconPathToken id = none →
      qrRoundTrip (beaconPathToken ++ id) = some id) ∧
    (∀ pathname : List Char, beaconPathToken.isPrefixOf pathname = false →
      extractBeaconId pathname = none) ∧
    extractBeaconId beaconPathToken = none := by
  refine ⟨?_, ?_, by decide⟩
  · intro id hne hocc
    have hsep : beaconPathToken ≠ [] := by decide
    unfold qrRoundTrip extractBeaconId
    rw [isPrefixOf_self_append beaconPathToken id, if_pos rfl]
    rw [jsSplit_token_at_start beaconPathToken id hsep hocc]
    show Option.map _ (if id = [] then none else some id) = some id
    rw [if_neg hne]
    show some (webviewBeaconId (beaconScheme ++ id)) = some id
    unfold webviewBeaconId
    rw [isPrefixOf_self_append beaconScheme id, if_pos rfl]
    unfold jsReplaceFirst
    rw [findOcc_self_append beaconScheme id (by decide)]
    rfl
  · intro pathname h
    unfold extractBeaconId
    rw [h]
    rfl

/-- Claim C8, witness: round-trip of the id `"abc123"` and rejection of
the marker-free pathname `"/x"`. -/
theorem C8_roundtrip_amended_witness :
    qrRoundTrip (beaconPathToken ++ ("abc123").toList) =
      some (("abc123").toList) ∧
    extractBeaconId (("/x").toList) = none :=
  ⟨C8_roundtrip_amended.1 (("abc123").toList) (by decide) (by decide),
   C8_roundtrip_amended.2.1 (("/x").toList) (by decide)⟩

/-- Claim C9, counterexample: the claim says the FIRST PRESENT
field-level message is surfaced, but on a body whose `username` errors
are `[""]` the code's `||` chain skips the present-but-empty message and
surfaces the `password` message instead. -/
theorem C9_error_precedence_counterexample :
    signUpErrorMessage demoSignUpBody = ("This password is too short.") ∧
    firstPresentMessage demoSignUpBody = ("") ∧
    ("This password is too short." : String) ≠ ("") :=
  ⟨by decide, by decide, by decide⟩

/-- Claim C9, amended: the sign-up client surfaces the first present
NON-EMPTY field-level message in the order username[0], password[0],
email[0], dob[0], falling back to a non-empty `detail` field, and to the
generic failure string otherwise. -/
theorem C9_error_precedence_amended (data : SignUpErrorBody) :
    signUpErrorMessage data = firstNonEmptyMessage data := by
  have h : signUpErrorMessage data =
      jsOrChain [data.username.bind List.head?, data.password.bind List.head?,
                 data.email.bind List.head?, data.dob.bind List.head?,
                 data.detail] ("Registration failed") := rfl
  rw [h, jsOrChain_eq_firstNonEmpty]
  rfl

/-- Claim C10: with an empty loaded beacon list, the nearest-beacon
computation returns no beacon (`undefined`) instead of failing, a
location update leaves the state with no nearby beacon, and the
"near the treasure" scan prompt is not shown. -/
theorem C10_empty_directory (dist : Coordinate → Coordinate → ℕ)
    (u c : Coordinate) (s : SessionState) :
    calculateDistance dist u [] = none ∧
    (locUpdate dist [] c s).nearbyLocation = none ∧
    scanPromptShown (locUpdate dist [] c s) = false :=
  ⟨rfl, rfl, rfl⟩
